import Mathlib

/-!
Verification of the ROMY vacuum-robot client library (`src/romy/utils.py` and
`src/romy/romy.py`) against its natural-language specification.

The embedding is shallow: the network is an explicit environment value
(`Env`) recording, per endpoint, the outcome the device would give; the
mutable `RomyRobot` object is an explicit state record; every operation is a
pure function from environment and state to a trace of issued queries
(`(port, command)` pairs), a possible Python exception (`RunResult.exn`,
raised by `json.loads` on a malformed body or by indexing an empty list),
and the updated state.  All definitions are translated line by line from the
Python source; the file then proves or refutes the specification's claims.
-/

/-- A value as Python stores it into the loosely typed `_sensors` dict:
`None`, an `int`, or a `float` (modelled as a rational, produced by the
statistics scaling `round(x / d, 2)`). -/
inductive PyVal where
  | pnone
  | pint (n : Int)
  | prat (q : Rat)
  deriving DecidableEq

/-- `d[k]` lookup in a Python dict modelled as an association list. -/
def dictGet {α : Type} (d : List (String × α)) (k : String) : Option α :=
  match d with
  | [] => none
  | (k2, v) :: rest => if k2 = k then some v else dictGet rest k

/-- `d[k] = v` assignment in a Python dict modelled as an association list:
replace in place when the key exists, append otherwise. -/
def dictSet {α : Type} (d : List (String × α)) (k : String) (v : α) : List (String × α) :=
  match d with
  | [] => [(k, v)]
  | (k2, v2) :: rest => if k2 = k then (k2, v) :: rest else (k2, v2) :: dictSet rest k v

/-- `self._sensors["battery_level"] = self._battery_level` stores the raw
field value, which is `None` until a `get/status` fetch succeeded. -/
def pyOfOptInt : Option Int → PyVal
  | none => PyVal.pnone
  | some n => PyVal.pint n

/-! ## The HTTP query primitive (`utils._async_query`) -/

/-- What the transport produces for one GET attempt: a full HTTP response,
an `asyncio.TimeoutError`, or an `aiohttp.ClientError` with a description. -/
inductive TransportOutcome where
  | response (status_code : Nat) (body : String)
  | timeoutErr
  | clientError (msg : String)
  deriving DecidableEq

/-- Normalized outcome of `utils._async_query`: the tuple
`(ret, response_decoded, webresponse.status)` from the source. -/
structure QueryResult where
  success : Bool
  body : String
  http_status : Nat
  deriving DecidableEq

/-- Embedding of `utils._async_query` (src/romy/utils.py lines 28-56).  The
transport is an unbounded supply of attempt outcomes; the code performs a
single GET, so only `attempts 0` is consumed.  `ret` starts `True` and is
cleared when the status is not 200; a timeout yields
`(False, "timeout", 0)`; a client error yields `(False, str(error), 0)`. -/
def _async_query (attempts : Nat → TransportOutcome) : QueryResult :=
  match attempts 0 with
  | TransportOutcome.response status_code body =>
      { success := decide (status_code = 200), body := body, http_status := status_code }
  | TransportOutcome.timeoutErr => { success := false, body := "timeout", http_status := 0 }
  | TransportOutcome.clientError msg => { success := false, body := msg, http_status := 0 }

/-! ## Endpoint payloads and the device environment -/

/-- Outcome, as seen by `romy_async_query` callers, of one endpoint query:
the query failed (`ret == False`), or it succeeded and `json.loads` plus the
subsequent field accesses either fail (`okMalformed`, which raises in
Python) or produce the typed payload. -/
inductive Reply (α : Type) where
  | fail
  | okMalformed
  | ok (payload : α)
  deriving DecidableEq

def Reply.isMalformed {α : Type} : Reply α → Bool
  | Reply.okMalformed => true
  | _ => false

def Reply.isOk {α : Type} : Reply α → Bool
  | Reply.ok _ => true
  | _ => false

/-- `get/robot_name` JSON payload. -/
structure NamePayload where
  name : String
  deriving DecidableEq

/-- `get/robot_id` JSON payload. -/
structure IdPayload where
  name : String
  unique_id : String
  model : String
  firmware : String
  deriving DecidableEq

/-- `get/status` JSON payload. -/
structure StatusPayload where
  mode : String
  battery_level : Int
  deriving DecidableEq

/-- `get/cleaning_parameter_set` JSON payload. -/
structure CleaningPayload where
  cleaning_parameter_set : Int
  deriving DecidableEq

/-- `get/wifi_status` JSON payload. -/
structure WifiPayload where
  rssi : Int
  deriving DecidableEq

/-- One nested entry of a `sensor_values` group: `device_descriptor`,
`payload.data.value` (read on the gpio path) and `payload.data.values`
(read on the adc path). -/
structure DeviceEntry where
  device_descriptor : String
  dataValue : String
  dataValues : List Int
  deriving DecidableEq

/-- One entry of `sensor_values.sensor_data`: a device type with its own
nested `sensor_data` list. -/
structure SensorGroup where
  device_type : String
  sensor_data : List DeviceEntry
  deriving DecidableEq

/-- `get/sensor_values` JSON payload. -/
structure SensorValuesPayload where
  sensor_data : List SensorGroup
  deriving DecidableEq

/-- `get/statistics` JSON payload. -/
structure StatisticsPayload where
  total_distance_driven : Int
  total_cleaning_time : Int
  total_area_cleaned : Int
  total_number_of_cleaning_runs : Int
  deriving DecidableEq

/-- The device side of a run: the HTTP status each port answers to the
probe command `ishttpinterfacelocked`, whether `set/unlock_http` succeeds,
and the reply of every other endpoint the session may query. -/
structure Env where
  probe : Nat → Nat
  unlock_http : Bool
  robot_name : Reply NamePayload
  robot_id : Reply IdPayload
  status : Reply StatusPayload
  cleaning_parameter_set : Reply CleaningPayload
  wifi_status : Reply WifiPayload
  sensor_values : Reply SensorValuesPayload
  statistics : Reply StatisticsPayload
  clean_start_or_continue : Bool
  clean_all : Bool
  stop : Bool
  go_home : Bool
  switch_cleaning_parameter_set : Bool
  set_robot_name : Bool

/-! ## The robot session state (`RomyRobot.__init__`) -/

def logging_ERROR : Nat := 40

def logging_DEBUG : Nat := 10

/-- The mutable fields of a `RomyRobot` instance, one per attribute set in
`__init__` (src/romy/romy.py lines 27-50). -/
structure RomyRobot where
  host : String
  password : String
  ports : List Nat
  port : Nat
  local_http_interface_is_locked : Bool
  initialized : Bool
  name : String
  user_name : String
  unique_id : String
  model : String
  firmware : String
  battery_level : Option Int
  fan_speed : Int
  status : Option String
  sensors : List (String × PyVal)
  binary_sensors : List (String × Bool)
  romy_async_query_error_log_level : Nat
  deriving DecidableEq

/-- `RomyRobot.__init__(host, password)`. -/
def RomyRobot.new (host password : String) : RomyRobot :=
  { host := host
    password := password
    ports := [8080, 10009, 80]
    port := 8080
    local_http_interface_is_locked := false
    initialized := false
    name := ""
    user_name := ""
    unique_id := ""
    model := ""
    firmware := ""
    battery_level := none
    fan_speed := 0
    status := none
    sensors := []
    binary_sensors := []
    romy_async_query_error_log_level := logging_ERROR }

/-- The state mutation `romy_async_query` performs besides returning
`(ret, response)` (src/romy/romy.py lines 122-127): the error-severity
throttle field is reset to `logging.ERROR` after a success and lowered to
`logging.DEBUG` after a failure. -/
def romy_query_log_update (s : RomyRobot) (ret : Bool) : RomyRobot :=
  { s with romy_async_query_error_log_level := if ret then logging_ERROR else logging_DEBUG }

/-! ## Runs: trace of issued queries, possible Python exception -/

/-- Result of running a stretch of session code: the queries issued so far
(`(port, command)` pairs) together with either the updated state or a
propagating Python exception. -/
inductive RunResult where
  | ok (trace : List (Nat × String)) (s : RomyRobot)
  | exn (trace : List (Nat × String)) (msg : String)
  deriving DecidableEq

def RunResult.trace : RunResult → List (Nat × String)
  | RunResult.ok tr _ => tr
  | RunResult.exn tr _ => tr

/-- Sequencing: an exception propagates past the rest of the method. -/
def RunResult.andThen (r : RunResult) (f : List (Nat × String) → RomyRobot → RunResult) : RunResult :=
  match r with
  | RunResult.ok tr s => f tr s
  | RunResult.exn tr msg => RunResult.exn tr msg

/-- One `ret, response = await self.romy_async_query(cmd)` call site followed
by `if ret: <parse and assign> else: <onFail>`: the query is issued on the
current port, the severity throttle is updated, and on success the parse
step either assigns (`Except.ok`) or raises (`Except.error`). -/
def romy_query_step {α : Type} (cmd : String) (r : Reply α)
    (onOk : α → RomyRobot → Except String RomyRobot)
    (onFail : RomyRobot → RomyRobot)
    (tr : List (Nat × String)) (s : RomyRobot) : RunResult :=
  let tr2 := tr ++ [(s.port, cmd)]
  match r with
  | Reply.fail => RunResult.ok tr2 (onFail (romy_query_log_update s false))
  | Reply.okMalformed => RunResult.exn tr2 (cmd ++ ": malformed response")
  | Reply.ok payload =>
    match onOk payload (romy_query_log_update s true) with
    | Except.ok s2 => RunResult.ok tr2 s2
    | Except.error msg => RunResult.exn tr2 msg

/-! ## Initialization (`RomyRobot._init`, src/romy/romy.py lines 52-113) -/

/-- The port-probing loop (lines 56-68): issue `ishttpinterfacelocked` (via
`async_query_with_http_status`, which does not touch the severity throttle)
to each port in order; the first port answering 400 or 403 is selected with
the corresponding lock state and the loop exits. -/
def probe_ports (probe : Nat → Nat) : List Nat → List (Nat × String) × Option (Nat × Bool)
  | [] => ([], none)
  | p :: rest =>
    let http_status := probe p
    if http_status = 400 then ([(p, "ishttpinterfacelocked")], some (p, false))
    else if http_status = 403 then ([(p, "ishttpinterfacelocked")], some (p, true))
    else
      let (tr, res) := probe_ports probe rest
      ((p, "ishttpinterfacelocked") :: tr, res)

/-- Lines 54-68: clear `initialized`, run the probe loop, and apply the
selected port and lock state (when no port matched, every field other than
`initialized` keeps its prior value). -/
def RomyRobot.init_probe (env : Env) (s : RomyRobot) : List (Nat × String) × RomyRobot :=
  let s2 := { s with initialized := false }
  match probe_ports env.probe s2.ports with
  | (tr, some (p, locked_state)) =>
    (tr, { s2 with local_http_interface_is_locked := locked_state, initialized := true, port := p })
  | (tr, none) => (tr, s2)

/-- Lines 70-80: when the interface is locked, unlock it — unless the
password is not exactly 8 characters, in which case no query is issued; on
query success the lock flag is cleared, on failure it is left set. -/
def RomyRobot.init_unlock (env : Env) (s : RomyRobot) : List (Nat × String) × RomyRobot :=
  if s.local_http_interface_is_locked then
    if s.password.length ≠ 8 then ([], s)
    else
      let tr := [(s.port, "set/unlock_http?pass=" ++ s.password)]
      if env.unlock_http then
        (tr, { romy_query_log_update s true with local_http_interface_is_locked := false })
      else (tr, romy_query_log_update s false)
  else ([], s)

/-! ## State refresh (`RomyRobot.async_update`, lines 246-301) -/

def supported_binary_sensors : List String := ["dustbin", "dock", "water_tank", "water_tank_empty"]

def supported_adc_sensors : List String := ["dustbin_sensor"]

/-- Innermost gpio loop (lines 279-284): `for supported_binary_sensor in
supported_binary_sensors`, setting the matching key from
`payload.data.value == "active"`. -/
def apply_gpio_supported (e : DeviceEntry) (b : List (String × Bool)) : List String → List (String × Bool)
  | [] => b
  | sup :: rest =>
    if e.device_descriptor = sup then
      if e.dataValue = "active" then apply_gpio_supported e (dictSet b sup true) rest
      else apply_gpio_supported e (dictSet b sup false) rest
    else apply_gpio_supported e b rest

/-- gpio loop over one group's entries (lines 278-284). -/
def apply_gpio_entries (b : List (String × Bool)) : List DeviceEntry → List (String × Bool)
  | [] => b
  | e :: rest => apply_gpio_entries (apply_gpio_supported e b supported_binary_sensors) rest

/-- Innermost adc loop (lines 290-292): `for supported_adc_sensor in
supported_adc_sensors`, storing `payload.data.values[0]` under the matching
key; indexing an empty `values` list raises `IndexError`. -/
def apply_adc_supported (e : DeviceEntry) (d : List (String × PyVal)) : List String → Except String (List (String × PyVal))
  | [] => Except.ok d
  | sup :: rest =>
    if e.device_descriptor = sup then
      match e.dataValues with
      | [] => Except.error "IndexError: list index out of range"
      | v :: _ => apply_adc_supported e (dictSet d sup (PyVal.pint v)) rest
    else apply_adc_supported e d rest

/-- adc loop over one group's entries (lines 289-292). -/
def apply_adc_entries (d : List (String × PyVal)) : List DeviceEntry → Except String (List (String × PyVal))
  | [] => Except.ok d
  | e :: rest =>
    match apply_adc_supported e d supported_adc_sensors with
    | Except.ok d2 => apply_adc_entries d2 rest
    | Except.error msg => Except.error msg

/-- One entry of the outer `sensor_data` loop (lines 273-292): the gpio
branch updates `binary_sensors`, the adc branch updates `sensors`. -/
def apply_sensor_group (s : RomyRobot) (g : SensorGroup) : Except String RomyRobot :=
  let s2 :=
    if g.device_type = "gpio" then
      { s with binary_sensors := apply_gpio_entries s.binary_sensors g.sensor_data }
    else s
  if g.device_type = "adc" then
    match apply_adc_entries s2.sensors g.sensor_data with
    | Except.ok d => Except.ok { s2 with sensors := d }
    | Except.error msg => Except.error msg
  else Except.ok s2

/-- The outer `sensor_data` loop (lines 273-292). -/
def apply_sensor_groups (s : RomyRobot) : List SensorGroup → Except String RomyRobot
  | [] => Except.ok s
  | g :: rest =>
    match apply_sensor_group s g with
    | Except.ok s2 => apply_sensor_groups s2 rest
    | Except.error msg => Except.error msg

/-- The whole `get/sensor_values` parse step (lines 272-292). -/
def apply_sensor_values (p : SensorValuesPayload) (s : RomyRobot) : Except String RomyRobot :=
  apply_sensor_groups s p.sensor_data

/-- Python `round(q, 2)` on the exact rational value (the source applies it
to a float; ties are immaterial to every claim below). -/
def round2 (q : Rat) : Rat := (round (q * 100) : Int) / 100

/-- Lines 250-254: `get/status` into `status` and `battery_level`. -/
def update_status_step (env : Env) (tr : List (Nat × String)) (s : RomyRobot) : RunResult :=
  romy_query_step "get/status" env.status
      (fun p s => Except.ok { s with status := some p.mode, battery_level := some p.battery_level })
      (fun s => s) tr s

/-- Lines 256-259: `get/cleaning_parameter_set` into `fan_speed`. -/
def update_fan_step (env : Env) (tr : List (Nat × String)) (s : RomyRobot) : RunResult :=
  romy_query_step "get/cleaning_parameter_set" env.cleaning_parameter_set
      (fun p s => Except.ok { s with fan_speed := p.cleaning_parameter_set })
      (fun s => s) tr s

/-- Lines 264-267: `get/wifi_status` into `sensors["rssi"]`. -/
def update_wifi_step (env : Env) (tr : List (Nat × String)) (s : RomyRobot) : RunResult :=
  romy_query_step "get/wifi_status" env.wifi_status
      (fun p s => Except.ok { s with sensors := dictSet s.sensors "rssi" (PyVal.pint p.rssi) })
      (fun s => s) tr s

/-- Lines 270-292: `get/sensor_values` through the nested loops. -/
def update_sensor_values_step (env : Env) (tr : List (Nat × String)) (s : RomyRobot) : RunResult :=
  romy_query_step "get/sensor_values" env.sensor_values
      (fun p s => apply_sensor_values p s)
      (fun s => s) tr s

/-- Lines 295-301: `get/statistics` into four derived sensor keys. -/
def update_statistics_step (env : Env) (tr : List (Nat × String)) (s : RomyRobot) : RunResult :=
  romy_query_step "get/statistics" env.statistics
      (fun p s =>
        let d1 := dictSet s.sensors "total_distance_driven"
          (PyVal.prat (round2 ((p.total_distance_driven : Rat) / 128)))
        let d2 := dictSet d1 "total_cleaning_time"
          (PyVal.prat (round2 ((p.total_cleaning_time : Rat) / 64)))
        let d3 := dictSet d2 "total_area_cleaned"
          (PyVal.prat (round2 ((p.total_area_cleaned : Rat) / 64)))
        let d4 := dictSet d3 "total_number_of_cleaning_runs"
          (PyVal.pint p.total_number_of_cleaning_runs)
        Except.ok { s with sensors := d4 })
      (fun s => s) tr s

/-- Line 262: `self._sensors["battery_level"] = self._battery_level`,
performed unconditionally between the second and third fetch. -/
def update_battery_sensor_assign (s : RomyRobot) : RomyRobot :=
  { s with sensors := dictSet s.sensors "battery_level" (pyOfOptInt s.battery_level) }

/-- `RomyRobot.async_update` (lines 246-301): six independent best-effort
sub-fetches; each failed query leaves its fields at their prior values, and
a malformed successful body raises. -/
def RomyRobot.async_update (env : Env) (tr : List (Nat × String)) (s : RomyRobot) : RunResult :=
  (update_status_step env tr s).andThen fun tr s =>
  (update_fan_step env tr s).andThen fun tr s =>
  (update_wifi_step env tr (update_battery_sensor_assign s)).andThen fun tr s =>
  (update_sensor_values_step env tr s).andThen fun tr s =>
  update_statistics_step env tr s

/-- Lines 83-89: `get/robot_name` into `user_name`; failure clears
`initialized`. -/
def init_robot_name_step (env : Env) (tr : List (Nat × String)) (s : RomyRobot) : RunResult :=
  romy_query_step "get/robot_name" env.robot_name
      (fun p s => Except.ok { s with user_name := p.name })
      (fun s => { s with initialized := false }) tr s

/-- Lines 91-100: `get/robot_id` into the four identity fields; failure
clears `initialized`. -/
def init_robot_id_step (env : Env) (tr : List (Nat × String)) (s : RomyRobot) : RunResult :=
  romy_query_step "get/robot_id" env.robot_id
      (fun p s => Except.ok
        { s with name := p.name, unique_id := p.unique_id, model := p.model, firmware := p.firmware })
      (fun s => { s with initialized := false }) tr s

/-- Lines 83-108: the two identity fetches followed by the full refresh. -/
def RomyRobot.init_fetch_and_update (env : Env) (tr : List (Nat × String)) (s : RomyRobot) : RunResult :=
  (init_robot_name_step env tr s).andThen fun tr s =>
  (init_robot_id_step env tr s).andThen fun tr s =>
  RomyRobot.async_update env tr s

/-- `RomyRobot._init` (lines 52-113): probe, unlock, the two identity
fetches, then a full refresh; the session object is returned regardless of
the outcome. -/
def RomyRobot.run_init (env : Env) (s : RomyRobot) : RunResult :=
  let (tr, s) := RomyRobot.init_probe env s
  let (tr2, s) := RomyRobot.init_unlock env s
  RomyRobot.init_fetch_and_update env (tr ++ tr2) s

/-- `create_romy(host, password)` (lines 20-22). -/
def create_romy (env : Env) (host password : String) : RunResult :=
  RomyRobot.run_init env (RomyRobot.new host password)

/-! ## Commands (lines 153-156 and 217-244) -/

/-- What a command method produces: its issued queries, its Python return
value (`None` or a bool — several methods return nothing), and the state. -/
structure CommandReturn where
  trace : List (Nat × String)
  retval : Option Bool
  state : RomyRobot
  deriving DecidableEq

/-- `async_clean_start_or_continue` (lines 217-221): one query embedding the
current fan speed; returns `ret`. -/
def RomyRobot.async_clean_start_or_continue (env : Env) (s : RomyRobot) : CommandReturn :=
  let cmd := "set/clean_start_or_continue?cleaning_parameter_set=" ++ toString s.fan_speed
  { trace := [(s.port, cmd)]
    retval := some env.clean_start_or_continue
    state := romy_query_log_update s env.clean_start_or_continue }

/-- `async_clean_all` (lines 223-226): one query embedding the current fan
speed; the method body has no return statement, so it returns `None`
despite its `-> bool` annotation. -/
def RomyRobot.async_clean_all (env : Env) (s : RomyRobot) : CommandReturn :=
  let cmd := "set/clean_all?cleaning_parameter_set=" ++ toString s.fan_speed
  { trace := [(s.port, cmd)]
    retval := none
    state := romy_query_log_update s env.clean_all }

/-- `async_stop` (lines 228-232): one query; returns `ret`. -/
def RomyRobot.async_stop (env : Env) (s : RomyRobot) : CommandReturn :=
  { trace := [(s.port, "set/stop")]
    retval := some env.stop
    state := romy_query_log_update s env.stop }

/-- `async_return_to_base` (lines 234-238): one query; returns `ret`. -/
def RomyRobot.async_return_to_base (env : Env) (s : RomyRobot) : CommandReturn :=
  { trace := [(s.port, "set/go_home")]
    retval := some env.go_home
    state := romy_query_log_update s env.go_home }

/-- `async_set_fan_speed` (lines 240-244): one query embedding the requested
value verbatim; on success the local `fan_speed` is updated; returns `None`. -/
def RomyRobot.async_set_fan_speed (env : Env) (fan_speed : Int) (s : RomyRobot) : CommandReturn :=
  let cmd := "set/switch_cleaning_parameter_set?cleaning_parameter_set=" ++ toString fan_speed
  let s2 := romy_query_log_update s env.switch_cleaning_parameter_set
  { trace := [(s.port, cmd)]
    retval := none
    state := if env.switch_cleaning_parameter_set then { s2 with fan_speed := fan_speed } else s2 }

/-- `set_user_name` (lines 153-156): one query embedding the new name
verbatim (no percent-encoding in the source); on success the local
`user_name` is updated; returns `None`. -/
def RomyRobot.set_user_name (env : Env) (s : RomyRobot) (new_name : String) : CommandReturn :=
  let cmd := "set/robot_name?name=" ++ new_name
  let s2 := romy_query_log_update s env.set_robot_name
  { trace := [(s.port, cmd)]
    retval := none
    state := if env.set_robot_name then { s2 with user_name := new_name } else s2 }

/-! ## Well-formedness of an environment's successful bodies -/

/-- Every adc entry that the inner loop would index has a non-empty
`payload.data.values` list (otherwise line 292 raises `IndexError`). -/
def sensorValuesWF (p : SensorValuesPayload) : Bool :=
  p.sensor_data.all fun g =>
    !(g.device_type = "adc" : Bool) ||
      g.sensor_data.all fun e =>
        !(supported_adc_sensors.contains e.device_descriptor) || !e.dataValues.isEmpty

/-- No successful body consumed by `async_update` is malformed, and adc
value lists are non-empty: exactly the condition under which no
`async_update` parse step raises. -/
def Env.updateWellFormed (env : Env) : Bool :=
  !env.status.isMalformed &&
  !env.cleaning_parameter_set.isMalformed &&
  !env.wifi_status.isMalformed &&
  (match env.sensor_values with
   | Reply.okMalformed => false
   | Reply.ok p => sensorValuesWF p
   | Reply.fail => true) &&
  !env.statistics.isMalformed

/-! ## Concrete environments and states used by witnesses below -/

/-- A fully unreachable device: every probe gets transport status 0 and
every query fails. -/
def envAllFail : Env :=
  { probe := fun _ => 0
    unlock_http := false
    robot_name := Reply.fail
    robot_id := Reply.fail
    status := Reply.fail
    cleaning_parameter_set := Reply.fail
    wifi_status := Reply.fail
    sensor_values := Reply.fail
    statistics := Reply.fail
    clean_start_or_continue := false
    clean_all := false
    stop := false
    go_home := false
    switch_cleaning_parameter_set := false
    set_robot_name := false }

def sensorValuesW : SensorValuesPayload :=
  { sensor_data :=
      [{ device_type := "gpio"
         sensor_data := [{ device_descriptor := "dustbin", dataValue := "active", dataValues := [] }] },
       { device_type := "adc"
         sensor_data := [{ device_descriptor := "dustbin_sensor", dataValue := "", dataValues := [42] }] }] }

/-- A fully healthy device answering 400 on the first port. -/
def envHappy : Env :=
  { probe := fun p => if p = 8080 then 400 else 0
    unlock_http := true
    robot_name := Reply.ok { name := "given name" }
    robot_id := Reply.ok { name := "ROMY", unique_id := "u1", model := "m1", firmware := "f1" }
    status := Reply.ok { mode := "cleaning", battery_level := 77 }
    cleaning_parameter_set := Reply.ok { cleaning_parameter_set := 2 }
    wifi_status := Reply.ok { rssi := -60 }
    sensor_values := Reply.ok sensorValuesW
    statistics := Reply.ok { total_distance_driven := 256, total_cleaning_time := 128,
                             total_area_cleaned := 192, total_number_of_cleaning_runs := 7 }
    clean_start_or_continue := true
    clean_all := true
    stop := true
    go_home := true
    switch_cleaning_parameter_set := true
    set_robot_name := true }

/-- `envAllFail` with only `get/status` succeeding. -/
def envStatusOnly : Env :=
  { envAllFail with status := Reply.ok { mode := "cleaning", battery_level := 77 } }

/-- The refresh trace on the default port. -/
def updateTraceAllFail : List (Nat × String) :=
  [(8080, "get/status"), (8080, "get/cleaning_parameter_set"), (8080, "get/wifi_status"),
   (8080, "get/sensor_values"), (8080, "get/statistics")]

/-- State after a refresh in which every query failed. -/
def sAfterAllFailUpdate : RomyRobot :=
  { RomyRobot.new "h" "pw" with
      sensors := [("battery_level", PyVal.pnone)]
      romy_async_query_error_log_level := logging_DEBUG }

/-- State after a refresh in which only `get/status` succeeded. -/
def sAfterStatusOnlyUpdate : RomyRobot :=
  { RomyRobot.new "h" "pw" with
      status := some "cleaning"
      battery_level := some 77
      sensors := [("battery_level", PyVal.pint 77)]
      romy_async_query_error_log_level := logging_DEBUG }

/-- `envAllFail` except port 10009 answers 403 to the probe. -/
def envProbe10009 : Env :=
  { envAllFail with probe := fun q => if q = 10009 then 403 else 0 }

/-- `envAllFail` except port 8080 answers 403 and the unlock query succeeds. -/
def envLock8080 : Env :=
  { envAllFail with
      probe := fun q => if q = 8080 then 403 else 0
      unlock_http := true }

/-! ## Basic lemmas: dicts, run sequencing, traces -/

theorem dictGet_dictSet_self {α : Type} (d : List (String × α)) (k : String) (v : α) :
    dictGet (dictSet d k v) k = some v := by
  induction d with
  | nil => simp [dictGet, dictSet]
  | cons hd t ih =>
    obtain ⟨k2, v2⟩ := hd
    by_cases hk : k2 = k
    · simp [dictGet, dictSet, hk]
    · simp [dictGet, dictSet, hk, ih]

theorem dictGet_dictSet_ne {α : Type} (d : List (String × α)) (k k2 : String) (v : α)
    (h : k2 ≠ k) : dictGet (dictSet d k v) k2 = dictGet d k2 := by
  induction d with
  | nil =>
    simp only [dictSet, dictGet]
    rw [if_neg (fun hh : k = k2 => h hh.symm)]
  | cons hd t ih =>
    obtain ⟨k3, v3⟩ := hd
    by_cases hk : k3 = k
    · subst hk
      simp only [dictSet, if_pos rfl, dictGet]
      rw [if_neg (fun hh : k3 = k2 => h hh.symm), if_neg (fun hh : k3 = k2 => h hh.symm)]
    · simp only [dictSet, if_neg hk, dictGet]
      by_cases hk2 : k3 = k2
      · rw [if_pos hk2, if_pos hk2]
      · rw [if_neg hk2, if_neg hk2, ih]

theorem andThen_ok (tr : List (Nat × String)) (s : RomyRobot) (f) :
    (RunResult.ok tr s).andThen f = f tr s := rfl

theorem andThen_exn (tr : List (Nat × String)) (msg : String) (f) :
    (RunResult.exn tr msg).andThen f = RunResult.exn tr msg := rfl

theorem romy_query_step_trace {α : Type} (cmd : String) (r : Reply α) (onOk onFail tr s) :
    (romy_query_step cmd r onOk onFail tr s).trace = tr ++ [(s.port, cmd)] := by
  cases r with
  | fail => rfl
  | okMalformed => rfl
  | ok p =>
    simp only [romy_query_step]
    cases onOk p (romy_query_log_update s true) <;> rfl

theorem andThen_mem_mono (r : RunResult) (f) (e : Nat × String)
    (hr : e ∈ r.trace)
    (hf : ∀ tr s, e ∈ tr → e ∈ (f tr s).trace) :
    e ∈ (r.andThen f).trace := by
  cases r with
  | ok tr s => exact hf tr s hr
  | exn tr m => exact hr

theorem andThen_mem_bound (r : RunResult) (f) (P : Nat × String → Prop)
    (hr : ∀ e ∈ r.trace, P e)
    (hf : ∀ tr s, (∀ e ∈ tr, P e) → ∀ e ∈ (f tr s).trace, P e) :
    ∀ e ∈ (r.andThen f).trace, P e := by
  cases r with
  | ok tr s => exact hf tr s hr
  | exn tr m => exact hr

theorem romy_query_step_mem_bound {α : Type} (cmd : String) (r : Reply α) (onOk onFail tr s) :
    ∀ e ∈ (romy_query_step cmd r onOk onFail tr s).trace, e ∈ tr ∨ e.2 = cmd := by
  rw [romy_query_step_trace]
  intro e he
  rcases List.mem_append.mp he with h | h
  · exact Or.inl h
  · right
    rcases List.mem_singleton.mp h with rfl
    rfl

theorem romy_query_step_mem_mono {α : Type} (cmd : String) (r : Reply α) (onOk onFail tr s)
    (e : Nat × String) (he : e ∈ tr) :
    e ∈ (romy_query_step cmd r onOk onFail tr s).trace := by
  rw [romy_query_step_trace]
  exact List.mem_append_left _ he

/-! ## Probe-loop lemmas -/

theorem probe_ports_cmds (probe : Nat → Nat) (l : List Nat) :
    ∀ e ∈ (probe_ports probe l).1, e.2 = "ishttpinterfacelocked" := by
  induction l with
  | nil => intro e he; simp [probe_ports] at he
  | cons p rest ih =>
    intro e he
    by_cases h4 : probe p = 400
    · simp [probe_ports, h4] at he
      rw [he]
    · by_cases h3 : probe p = 403
      · simp [probe_ports, h4, h3] at he
        rw [he]
      · rcases hr : probe_ports probe rest with ⟨tr, res⟩
        simp only [probe_ports, h4, h3, if_false, hr] at he
        rcases List.mem_cons.mp he with rfl | hmem
        · rfl
        · exact ih e (by rw [hr]; exact hmem)

theorem probe_ports_first_match (probe : Nat → Nat) (l1 : List Nat) (p : Nat) (l2 : List Nat)
    (h1 : ∀ q ∈ l1, probe q ≠ 400 ∧ probe q ≠ 403)
    (hp : probe p = 400 ∨ probe p = 403) :
    probe_ports probe (l1 ++ p :: l2) =
      ((l1 ++ [p]).map (fun q => (q, "ishttpinterfacelocked")), some (p, probe p == 403)) := by
  induction l1 with
  | nil =>
    rcases hp with h | h
    · simp [probe_ports, h]
    · have h4 : probe p ≠ 400 := by rw [h]; decide
      simp [probe_ports, h, h4]
  | cons q l1' ih =>
    have hq := h1 q (List.mem_cons_self q l1')
    have ihr := ih (fun r hr => h1 r (List.mem_cons_of_mem q hr))
    simp only [List.cons_append, probe_ports, hq.1, hq.2, if_false, List.append_eq, ihr,
      List.map_cons]

theorem probe_ports_no_match (probe : Nat → Nat) (l : List Nat)
    (h : ∀ q ∈ l, probe q ≠ 400 ∧ probe q ≠ 403) :
    probe_ports probe l = (l.map (fun q => (q, "ishttpinterfacelocked")), none) := by
  induction l with
  | nil => simp [probe_ports]
  | cons p rest ih =>
    have hp := h p (List.mem_cons_self p rest)
    have ihr := ih (fun r hr => h r (List.mem_cons_of_mem p hr))
    simp only [probe_ports, hp.1, hp.2, if_false, List.append_eq, ihr, List.map_cons]

/-! ## String head lemmas (to tell commands apart with an abstract password) -/

theorem unlock_cmd_head (pw : String) :
    ("set/unlock_http?pass=" ++ pw).data.head? = some 's' := rfl

theorem unlock_cmd_ne (pw c : String) (h : c.data.head? ≠ some 's') :
    "set/unlock_http?pass=" ++ pw ≠ c :=
  fun he => h (he ▸ unlock_cmd_head pw)

/-! ## Sensor-values processing lemmas -/

theorem apply_adc_supported_frame (e : DeviceEntry) (l : List String)
    (d d2 : List (String × PyVal)) (h : apply_adc_supported e d l = Except.ok d2)
    (k : String) (hk : k ∉ l) : dictGet d2 k = dictGet d k := by
  induction l generalizing d with
  | nil =>
    simp only [apply_adc_supported] at h
    cases h
    rfl
  | cons sup rest ih =>
    simp only [apply_adc_supported] at h
    have hk1 : k ≠ sup := fun hh => hk (hh ▸ List.mem_cons_self sup rest)
    have hk2 : k ∉ rest := fun hh => hk (List.mem_cons_of_mem sup hh)
    by_cases hd : e.device_descriptor = sup
    · rw [if_pos hd] at h
      cases hv : e.dataValues with
      | nil => rw [hv] at h; cases h
      | cons v t =>
        rw [hv] at h
        rw [ih (dictSet d sup (PyVal.pint v)) h hk2, dictGet_dictSet_ne _ _ _ _ hk1]
    · rw [if_neg hd] at h
      exact ih d h hk2

theorem apply_adc_entries_frame (es : List DeviceEntry) (d d2 : List (String × PyVal))
    (h : apply_adc_entries d es = Except.ok d2)
    (k : String) (hk : k ∉ supported_adc_sensors) : dictGet d2 k = dictGet d k := by
  induction es generalizing d with
  | nil =>
    simp only [apply_adc_entries] at h
    cases h
    rfl
  | cons e rest ih =>
    simp only [apply_adc_entries] at h
    cases hs : apply_adc_supported e d supported_adc_sensors with
    | error msg => rw [hs] at h; cases h
    | ok d1 =>
      rw [hs] at h
      rw [ih d1 h, apply_adc_supported_frame e _ d d1 hs k hk]

theorem apply_adc_supported_ok (e : DeviceEntry) (l : List String) (d : List (String × PyVal))
    (h : e.device_descriptor ∈ l → e.dataValues ≠ []) :
    ∃ d2, apply_adc_supported e d l = Except.ok d2 := by
  induction l generalizing d with
  | nil => exact ⟨d, rfl⟩
  | cons sup rest ih =>
    by_cases hd : e.device_descriptor = sup
    · have hne := h (hd ▸ List.mem_cons_self sup rest)
      cases hv : e.dataValues with
      | nil => exact absurd hv hne
      | cons v t =>
        obtain ⟨d2, hd2⟩ := ih (dictSet d sup (PyVal.pint v)) (fun _ => hne)
        exact ⟨d2, by simp only [apply_adc_supported, if_pos hd, hv, hd2]⟩
    · obtain ⟨d2, hd2⟩ := ih d (fun hm => h (List.mem_cons_of_mem sup hm))
      exact ⟨d2, by simp only [apply_adc_supported, if_neg hd, hd2]⟩

theorem apply_adc_entries_ok (es : List DeviceEntry) (d : List (String × PyVal))
    (h : ∀ e ∈ es, e.device_descriptor ∈ supported_adc_sensors → e.dataValues ≠ []) :
    ∃ d2, apply_adc_entries d es = Except.ok d2 := by
  induction es generalizing d with
  | nil => exact ⟨d, rfl⟩
  | cons e rest ih =>
    obtain ⟨d1, hd1⟩ := apply_adc_supported_ok e supported_adc_sensors d
      (h e (List.mem_cons_self e rest))
    obtain ⟨d2, hd2⟩ := ih d1 (fun e2 he2 => h e2 (List.mem_cons_of_mem e he2))
    exact ⟨d2, by simp only [apply_adc_entries, hd1, hd2]⟩

theorem apply_sensor_group_frame (s : RomyRobot) (g : SensorGroup) (s2 : RomyRobot)
    (h : apply_sensor_group s g = Except.ok s2) :
    s2.status = s.status ∧ s2.battery_level = s.battery_level ∧
    s2.initialized = s.initialized ∧ s2.port = s.port ∧
    s2.fan_speed = s.fan_speed ∧ s2.user_name = s.user_name ∧
    (∀ k, k ∉ supported_adc_sensors → dictGet s2.sensors k = dictGet s.sensors k) := by
  by_cases hgpio : g.device_type = "gpio"
  · have hadc : ¬ g.device_type = "adc" := by rw [hgpio]; decide
    simp only [apply_sensor_group, hgpio, if_pos, hadc, if_false, if_true] at h
    cases h
    exact ⟨rfl, rfl, rfl, rfl, rfl, rfl, fun k _ => rfl⟩
  · simp only [apply_sensor_group, hgpio, if_false] at h
    by_cases hadc : g.device_type = "adc"
    · rw [if_pos hadc] at h
      cases hs : apply_adc_entries s.sensors g.sensor_data with
      | error msg => rw [hs] at h; cases h
      | ok d =>
        rw [hs] at h
        cases h
        exact ⟨rfl, rfl, rfl, rfl, rfl, rfl,
          fun k hk => apply_adc_entries_frame _ _ _ hs k hk⟩
    · rw [if_neg hadc] at h
      cases h
      exact ⟨rfl, rfl, rfl, rfl, rfl, rfl, fun k _ => rfl⟩

theorem apply_sensor_group_ok (s : RomyRobot) (g : SensorGroup)
    (h : g.device_type = "adc" →
      ∀ e ∈ g.sensor_data, e.device_descriptor ∈ supported_adc_sensors → e.dataValues ≠ []) :
    ∃ s2, apply_sensor_group s g = Except.ok s2 := by
  by_cases hadc : g.device_type = "adc"
  · have hgpio : ¬ g.device_type = "gpio" := by rw [hadc]; decide
    obtain ⟨d, hd⟩ := apply_adc_entries_ok g.sensor_data s.sensors (h hadc)
    simp only [apply_sensor_group, if_neg hgpio, if_pos hadc, hd]
    exact ⟨_, rfl⟩
  · by_cases hgpio : g.device_type = "gpio"
    · simp only [apply_sensor_group, if_pos hgpio, if_neg hadc]
      exact ⟨_, rfl⟩
    · simp only [apply_sensor_group, if_neg hgpio, if_neg hadc]
      exact ⟨_, rfl⟩

theorem apply_sensor_groups_frame (gs : List SensorGroup) (s s2 : RomyRobot)
    (h : apply_sensor_groups s gs = Except.ok s2) :
    s2.status = s.status ∧ s2.battery_level = s.battery_level ∧
    s2.initialized = s.initialized ∧ s2.port = s.port ∧
    s2.fan_speed = s.fan_speed ∧ s2.user_name = s.user_name ∧
    (∀ k, k ∉ supported_adc_sensors → dictGet s2.sensors k = dictGet s.sensors k) := by
  induction gs generalizing s with
  | nil =>
    simp only [apply_sensor_groups] at h
    cases h
    exact ⟨rfl, rfl, rfl, rfl, rfl, rfl, fun k _ => rfl⟩
  | cons g rest ih =>
    simp only [apply_sensor_groups] at h
    cases hg : apply_sensor_group s g with
    | error msg => rw [hg] at h; cases h
    | ok s1 =>
      rw [hg] at h
      obtain ⟨a1, b1, c1, d1, e1, f1, g1⟩ := apply_sensor_group_frame s g s1 hg
      obtain ⟨a2, b2, c2, d2, e2, f2, g2⟩ := ih s1 h
      exact ⟨a2.trans a1, b2.trans b1, c2.trans c1, d2.trans d1, e2.trans e1, f2.trans f1,
        fun k hk => (g2 k hk).trans (g1 k hk)⟩

theorem apply_sensor_groups_ok (gs : List SensorGroup) (s : RomyRobot)
    (h : ∀ g ∈ gs, g.device_type = "adc" →
      ∀ e ∈ g.sensor_data, e.device_descriptor ∈ supported_adc_sensors → e.dataValues ≠ []) :
    ∃ s2, apply_sensor_groups s gs = Except.ok s2 := by
  induction gs generalizing s with
  | nil => exact ⟨s, rfl⟩
  | cons g rest ih =>
    obtain ⟨s1, hs1⟩ := apply_sensor_group_ok s g (h g (List.mem_cons_self g rest))
    obtain ⟨s2, hs2⟩ := ih s1 (fun g2 hg2 => h g2 (List.mem_cons_of_mem g hg2))
    exact ⟨s2, by simp only [apply_sensor_groups, hs1, hs2]⟩

/-- The boolean well-formedness check implies the hypothesis the existence
lemmas need. -/
theorem sensorValuesWF_spec (p : SensorValuesPayload) (h : sensorValuesWF p = true) :
    ∀ g ∈ p.sensor_data, g.device_type = "adc" →
      ∀ e ∈ g.sensor_data, e.device_descriptor ∈ supported_adc_sensors → e.dataValues ≠ [] := by
  intro g hg hadc e he hd
  have hdesc : e.device_descriptor = "dustbin_sensor" := List.mem_singleton.mp hd
  have h1 := (List.all_eq_true.mp h) g hg
  simp [sensorValuesWF, hadc] at h1
  rcases h1 e he with hno | hne
  · exact absurd hd hno
  · exact hne

/-! ## Inversion and existence lemmas for run sequencing -/

theorem andThen_ok_elim {r : RunResult} {f} {tr2 : List (Nat × String)} {s2 : RomyRobot}
    (h : r.andThen f = RunResult.ok tr2 s2) :
    ∃ tr1 s1, r = RunResult.ok tr1 s1 ∧ f tr1 s1 = RunResult.ok tr2 s2 := by
  cases r with
  | ok tr s => exact ⟨tr, s, rfl, h⟩
  | exn tr m => exact (RunResult.noConfusion h)

theorem andThen_ok_total {r : RunResult} {f}
    (hr : ∃ tr s, r = RunResult.ok tr s)
    (hf : ∀ tr s, ∃ tr2 s2, f tr s = RunResult.ok tr2 s2) :
    ∃ tr2 s2, r.andThen f = RunResult.ok tr2 s2 := by
  obtain ⟨tr, s, rfl⟩ := hr
  exact hf tr s

theorem romy_query_step_ok_elim {α : Type} {cmd : String} {r : Reply α}
    {onOk : α → RomyRobot → Except String RomyRobot} {onFail : RomyRobot → RomyRobot}
    {tr : List (Nat × String)} {s : RomyRobot} {tr2 : List (Nat × String)} {s2 : RomyRobot}
    (h : romy_query_step cmd r onOk onFail tr s = RunResult.ok tr2 s2) :
    tr2 = tr ++ [(s.port, cmd)] ∧
    ((r = Reply.fail ∧ s2 = onFail (romy_query_log_update s false)) ∨
     (∃ p, r = Reply.ok p ∧ onOk p (romy_query_log_update s true) = Except.ok s2)) := by
  cases r with
  | fail =>
    simp only [romy_query_step] at h
    cases h
    exact ⟨rfl, Or.inl ⟨rfl, rfl⟩⟩
  | okMalformed =>
    simp only [romy_query_step] at h
    exact (RunResult.noConfusion h)
  | ok p =>
    cases honk : onOk p (romy_query_log_update s true) with
    | ok s3 =>
      simp only [romy_query_step, honk] at h
      cases h
      exact ⟨rfl, Or.inr ⟨p, rfl, honk⟩⟩
    | error msg =>
      simp only [romy_query_step, honk] at h
      exact (RunResult.noConfusion h)

theorem romy_query_step_ok_total {α : Type} (cmd : String) (r : Reply α)
    (onOk : α → RomyRobot → Except String RomyRobot) (onFail : RomyRobot → RomyRobot)
    (tr : List (Nat × String)) (s : RomyRobot)
    (hM : r.isMalformed = false)
    (hOk : ∀ p, r = Reply.ok p → ∃ s2, onOk p (romy_query_log_update s true) = Except.ok s2) :
    ∃ tr2 s2, romy_query_step cmd r onOk onFail tr s = RunResult.ok tr2 s2 := by
  cases r with
  | fail => exact ⟨_, _, rfl⟩
  | okMalformed => simp [Reply.isMalformed] at hM
  | ok p =>
    obtain ⟨s2, hs2⟩ := hOk p rfl
    refine ⟨tr ++ [(s.port, cmd)], s2, ?_⟩
    simp only [romy_query_step, hs2]

/-! ## Per-step lemmas for `async_update` -/

theorem update_status_step_ok_elim {env : Env} {tr : List (Nat × String)} {s : RomyRobot}
    {tr2 : List (Nat × String)} {s2 : RomyRobot}
    (h : update_status_step env tr s = RunResult.ok tr2 s2) :
    tr2 = tr ++ [(s.port, "get/status")] ∧
    s2.sensors = s.sensors ∧ s2.initialized = s.initialized ∧ s2.port = s.port ∧
    ((env.status = Reply.fail ∧ s2.status = s.status ∧ s2.battery_level = s.battery_level) ∨
     (∃ p, env.status = Reply.ok p ∧ s2.status = some p.mode ∧
        s2.battery_level = some p.battery_level)) := by
  unfold update_status_step at h
  obtain ⟨htr, hcase⟩ := romy_query_step_ok_elim h
  rcases hcase with ⟨hst, rfl⟩ | ⟨p, hst, hok⟩
  · exact ⟨htr, rfl, rfl, rfl, Or.inl ⟨hst, rfl, rfl⟩⟩
  · cases hok
    exact ⟨htr, rfl, rfl, rfl, Or.inr ⟨p, hst, rfl, rfl⟩⟩

theorem update_fan_step_ok_elim {env : Env} {tr : List (Nat × String)} {s : RomyRobot}
    {tr2 : List (Nat × String)} {s2 : RomyRobot}
    (h : update_fan_step env tr s = RunResult.ok tr2 s2) :
    tr2 = tr ++ [(s.port, "get/cleaning_parameter_set")] ∧
    s2.sensors = s.sensors ∧ s2.initialized = s.initialized ∧ s2.port = s.port ∧
    s2.status = s.status ∧ s2.battery_level = s.battery_level := by
  unfold update_fan_step at h
  obtain ⟨htr, hcase⟩ := romy_query_step_ok_elim h
  rcases hcase with ⟨hst, rfl⟩ | ⟨p, hst, hok⟩
  · exact ⟨htr, rfl, rfl, rfl, rfl, rfl⟩
  · cases hok
    exact ⟨htr, rfl, rfl, rfl, rfl, rfl⟩

theorem update_wifi_step_ok_elim {env : Env} {tr : List (Nat × String)} {s : RomyRobot}
    {tr2 : List (Nat × String)} {s2 : RomyRobot}
    (h : update_wifi_step env tr s = RunResult.ok tr2 s2) :
    tr2 = tr ++ [(s.port, "get/wifi_status")] ∧
    s2.initialized = s.initialized ∧ s2.port = s.port ∧
    s2.status = s.status ∧ s2.battery_level = s.battery_level ∧
    (∀ k, k ≠ "rssi" → dictGet s2.sensors k = dictGet s.sensors k) ∧
    (env.wifi_status = Reply.fail → s2.sensors = s.sensors) := by
  unfold update_wifi_step at h
  obtain ⟨htr, hcase⟩ := romy_query_step_ok_elim h
  rcases hcase with ⟨hst, rfl⟩ | ⟨p, hst, hok⟩
  · exact ⟨htr, rfl, rfl, rfl, rfl, fun k _ => rfl, fun _ => rfl⟩
  · cases hok
    refine ⟨htr, rfl, rfl, rfl, rfl, ?_, ?_⟩
    · intro k hk
      exact dictGet_dictSet_ne _ _ _ _ hk
    · intro hfail
      rw [hst] at hfail
      exact (Reply.noConfusion hfail)

theorem update_sensor_values_step_ok_elim {env : Env} {tr : List (Nat × String)} {s : RomyRobot}
    {tr2 : List (Nat × String)} {s2 : RomyRobot}
    (h : update_sensor_values_step env tr s = RunResult.ok tr2 s2) :
    tr2 = tr ++ [(s.port, "get/sensor_values")] ∧
    s2.initialized = s.initialized ∧ s2.port = s.port ∧
    s2.status = s.status ∧ s2.battery_level = s.battery_level ∧
    (∀ k, k ∉ supported_adc_sensors → dictGet s2.sensors k = dictGet s.sensors k) := by
  unfold update_sensor_values_step at h
  obtain ⟨htr, hcase⟩ := romy_query_step_ok_elim h
  rcases hcase with ⟨hst, rfl⟩ | ⟨p, hst, hok⟩
  · exact ⟨htr, rfl, rfl, rfl, rfl, fun k _ => rfl⟩
  · obtain ⟨a, b, c, d, e, f, g⟩ := apply_sensor_groups_frame p.sensor_data _ s2 hok
    exact ⟨htr, c, d, a, b, fun k hk => g k hk⟩

theorem update_statistics_step_ok_elim {env : Env} {tr : List (Nat × String)} {s : RomyRobot}
    {tr2 : List (Nat × String)} {s2 : RomyRobot}
    (h : update_statistics_step env tr s = RunResult.ok tr2 s2) :
    tr2 = tr ++ [(s.port, "get/statistics")] ∧
    s2.initialized = s.initialized ∧ s2.port = s.port ∧
    s2.status = s.status ∧ s2.battery_level = s.battery_level ∧
    (∀ k, k ∉ (["total_distance_driven", "total_cleaning_time", "total_area_cleaned",
        "total_number_of_cleaning_runs"] : List String) →
      dictGet s2.sensors k = dictGet s.sensors k) := by
  unfold update_statistics_step at h
  obtain ⟨htr, hcase⟩ := romy_query_step_ok_elim h
  rcases hcase with ⟨hst, rfl⟩ | ⟨p, hst, hok⟩
  · exact ⟨htr, rfl, rfl, rfl, rfl, fun k _ => rfl⟩
  · cases hok
    refine ⟨htr, rfl, rfl, rfl, rfl, ?_⟩
    intro k hk
    have h1 : k ≠ "total_distance_driven" := by intro hh; exact hk (by rw [hh]; simp)
    have h2 : k ≠ "total_cleaning_time" := by intro hh; exact hk (by rw [hh]; simp)
    have h3 : k ≠ "total_area_cleaned" := by intro hh; exact hk (by rw [hh]; simp)
    have h4 : k ≠ "total_number_of_cleaning_runs" := by intro hh; exact hk (by rw [hh]; simp)
    rw [dictGet_dictSet_ne _ _ _ _ h4, dictGet_dictSet_ne _ _ _ _ h3,
      dictGet_dictSet_ne _ _ _ _ h2, dictGet_dictSet_ne _ _ _ _ h1]
    rfl

theorem init_robot_name_step_ok_elim {env : Env} {tr : List (Nat × String)} {s : RomyRobot}
    {tr2 : List (Nat × String)} {s2 : RomyRobot}
    (h : init_robot_name_step env tr s = RunResult.ok tr2 s2) :
    tr2 = tr ++ [(s.port, "get/robot_name")] ∧ s2.port = s.port ∧
    (s.initialized = false → s2.initialized = false) := by
  unfold init_robot_name_step at h
  obtain ⟨htr, hcase⟩ := romy_query_step_ok_elim h
  rcases hcase with ⟨hst, rfl⟩ | ⟨p, hst, hok⟩
  · exact ⟨htr, rfl, fun _ => rfl⟩
  · cases hok
    exact ⟨htr, rfl, fun hh => hh⟩

theorem init_robot_id_step_ok_elim {env : Env} {tr : List (Nat × String)} {s : RomyRobot}
    {tr2 : List (Nat × String)} {s2 : RomyRobot}
    (h : init_robot_id_step env tr s = RunResult.ok tr2 s2) :
    tr2 = tr ++ [(s.port, "get/robot_id")] ∧ s2.port = s.port ∧
    (s.initialized = false → s2.initialized = false) := by
  unfold init_robot_id_step at h
  obtain ⟨htr, hcase⟩ := romy_query_step_ok_elim h
  rcases hcase with ⟨hst, rfl⟩ | ⟨p, hst, hok⟩
  · exact ⟨htr, rfl, fun _ => rfl⟩
  · cases hok
    exact ⟨htr, rfl, fun hh => hh⟩

theorem update_status_step_total (env : Env) (tr : List (Nat × String)) (s : RomyRobot)
    (hM : env.status.isMalformed = false) :
    ∃ tr2 s2, update_status_step env tr s = RunResult.ok tr2 s2 :=
  romy_query_step_ok_total _ _ _ _ _ _ hM (fun _p _ => ⟨_, rfl⟩)

theorem update_fan_step_total (env : Env) (tr : List (Nat × String)) (s : RomyRobot)
    (hM : env.cleaning_parameter_set.isMalformed = false) :
    ∃ tr2 s2, update_fan_step env tr s = RunResult.ok tr2 s2 :=
  romy_query_step_ok_total _ _ _ _ _ _ hM (fun _p _ => ⟨_, rfl⟩)

theorem update_wifi_step_total (env : Env) (tr : List (Nat × String)) (s : RomyRobot)
    (hM : env.wifi_status.isMalformed = false) :
    ∃ tr2 s2, update_wifi_step env tr s = RunResult.ok tr2 s2 :=
  romy_query_step_ok_total _ _ _ _ _ _ hM (fun _p _ => ⟨_, rfl⟩)

theorem update_sensor_values_step_total (env : Env) (tr : List (Nat × String)) (s : RomyRobot)
    (hM : env.sensor_values.isMalformed = false)
    (hwf : ∀ p, env.sensor_values = Reply.ok p → sensorValuesWF p = true) :
    ∃ tr2 s2, update_sensor_values_step env tr s = RunResult.ok tr2 s2 :=
  romy_query_step_ok_total _ _ _ _ _ _ hM
    (fun p hp => apply_sensor_groups_ok p.sensor_data _ (sensorValuesWF_spec p (hwf p hp)))

theorem update_statistics_step_total (env : Env) (tr : List (Nat × String)) (s : RomyRobot)
    (hM : env.statistics.isMalformed = false) :
    ∃ tr2 s2, update_statistics_step env tr s = RunResult.ok tr2 s2 :=
  romy_query_step_ok_total _ _ _ _ _ _ hM (fun _p _ => ⟨_, rfl⟩)

theorem updateWellFormed_spec (env : Env) (h : env.updateWellFormed = true) :
    env.status.isMalformed = false ∧ env.cleaning_parameter_set.isMalformed = false ∧
    env.wifi_status.isMalformed = false ∧ env.sensor_values.isMalformed = false ∧
    (∀ p, env.sensor_values = Reply.ok p → sensorValuesWF p = true) ∧
    env.statistics.isMalformed = false := by
  simp only [Env.updateWellFormed, Bool.and_eq_true, Bool.not_eq_true'] at h
  obtain ⟨⟨⟨⟨h1, h2⟩, h3⟩, h4⟩, h5⟩ := h
  refine ⟨h1, h2, h3, ?_, ?_, h5⟩
  · cases hsv : env.sensor_values with
    | fail => rfl
    | okMalformed => rw [hsv] at h4; exact absurd h4 (by decide)
    | ok p => rfl
  · intro p hp
    rw [hp] at h4
    exact h4

/-! ## Whole-refresh lemmas -/

theorem async_update_total (env : Env) (tr : List (Nat × String)) (s : RomyRobot)
    (h : env.updateWellFormed = true) :
    ∃ tr2 s2, RomyRobot.async_update env tr s = RunResult.ok tr2 s2 := by
  obtain ⟨h1, h2, h3, h4, h5, h6⟩ := updateWellFormed_spec env h
  unfold RomyRobot.async_update
  apply andThen_ok_total (update_status_step_total env tr s h1)
  intro tr1 s1
  apply andThen_ok_total (update_fan_step_total env tr1 s1 h2)
  intro tr2 s2
  apply andThen_ok_total (update_wifi_step_total env _ _ h3)
  intro tr3 s3
  apply andThen_ok_total (update_sensor_values_step_total env _ _ h4 h5)
  intro tr4 s4
  exact update_statistics_step_total env _ _ h6


theorem update_battery_sensor_assign_facts (s : RomyRobot) :
    (update_battery_sensor_assign s).initialized = s.initialized ∧
    (update_battery_sensor_assign s).status = s.status ∧
    (update_battery_sensor_assign s).battery_level = s.battery_level ∧
    (update_battery_sensor_assign s).port = s.port ∧
    dictGet (update_battery_sensor_assign s).sensors "battery_level" =
      some (pyOfOptInt s.battery_level) ∧
    (∀ k, k ≠ "battery_level" →
      dictGet (update_battery_sensor_assign s).sensors k = dictGet s.sensors k) :=
  ⟨rfl, rfl, rfl, rfl, dictGet_dictSet_self _ _ _,
   fun _k hk => dictGet_dictSet_ne _ _ _ _ hk⟩

theorem async_update_ok_facts {env : Env} {tr : List (Nat × String)} {s : RomyRobot}
    {tr2 : List (Nat × String)} {s2 : RomyRobot}
    (h : RomyRobot.async_update env tr s = RunResult.ok tr2 s2) :
    s2.initialized = s.initialized ∧
    dictGet s2.sensors "battery_level" = some (pyOfOptInt s2.battery_level) ∧
    (env.status = Reply.fail → s2.status = s.status ∧ s2.battery_level = s.battery_level) ∧
    (∀ p, env.status = Reply.ok p → s2.status = some p.mode ∧
        s2.battery_level = some p.battery_level) ∧
    (env.wifi_status = Reply.fail → dictGet s2.sensors "rssi" = dictGet s.sensors "rssi") ∧
    (env.status = Reply.fail ∨ ∃ p, env.status = Reply.ok p) := by
  unfold RomyRobot.async_update at h
  obtain ⟨t1, s1, h1, h⟩ := andThen_ok_elim h
  obtain ⟨t2, sf, h2, h⟩ := andThen_ok_elim h
  obtain ⟨t3, s3, h3, h⟩ := andThen_ok_elim h
  obtain ⟨t4, s4, h4, h⟩ := andThen_ok_elim h
  obtain ⟨_, hsen1, hini1, _, hstat1⟩ := update_status_step_ok_elim h1
  obtain ⟨_, hsen2, hini2, _, hst2, hbt2⟩ := update_fan_step_ok_elim h2
  obtain ⟨_, hini3, _, hst3, hbt3, hget3, hfail3⟩ := update_wifi_step_ok_elim h3
  obtain ⟨_, hini4, _, hst4, hbt4, hget4⟩ := update_sensor_values_step_ok_elim h4
  obtain ⟨_, hini5, _, hst5, hbt5, hget5⟩ := update_statistics_step_ok_elim h
  obtain ⟨hbi, hbs, hbb, hbp, hbkey, hbget⟩ := update_battery_sensor_assign_facts sf
  have hini : s2.initialized = s.initialized := by
    rw [hini5, hini4, hini3, hbi, hini2, hini1]
  have hbat24 : s2.battery_level = sf.battery_level := by
    rw [hbt5, hbt4, hbt3, hbb]
  have hst24 : s2.status = sf.status := by
    rw [hst5, hst4, hst3, hbs]
  have hbatkey : dictGet s2.sensors "battery_level" = some (pyOfOptInt s2.battery_level) := by
    rw [hget5 "battery_level" (by decide), hget4 "battery_level" (by simp [supported_adc_sensors]),
      hget3 "battery_level" (by decide), hbkey, hbat24]
  refine ⟨hini, hbatkey, ?_, ?_, ?_⟩
  · intro hfail
    rcases hstat1 with ⟨_, hstq, hbtq⟩ | ⟨p, hok, _, _⟩
    · constructor
      · rw [hst24, hst2, hstq]
      · rw [hbat24, hbt2, hbtq]
    · rw [hfail] at hok
      exact (Reply.noConfusion hok)
  · intro p hok
    rcases hstat1 with ⟨hfail, _, _⟩ | ⟨p2, hok2, hstq, hbtq⟩
    · rw [hok] at hfail
      exact (Reply.noConfusion hfail)
    · rw [hok] at hok2
      cases hok2
      constructor
      · rw [hst24, hst2, hstq]
      · rw [hbat24, hbt2, hbtq]
  refine ?_
  constructor
  · intro hwfail
    rw [hget5 "rssi" (by decide), hget4 "rssi" (by simp [supported_adc_sensors]), hfail3 hwfail,
      hbget "rssi" (by decide), hsen2, hsen1]
  · rcases hstat1 with ⟨hf, _, _⟩ | ⟨p, hok, _, _⟩
    · exact Or.inl hf
    · exact Or.inr ⟨p, hok⟩

theorem async_update_mem_bound (env : Env) (tr : List (Nat × String)) (s : RomyRobot) :
    ∀ e ∈ (RomyRobot.async_update env tr s).trace,
      e ∈ tr ∨ e.2 ∈ (["get/status", "get/cleaning_parameter_set", "get/wifi_status",
        "get/sensor_values", "get/statistics"] : List String) := by
  unfold RomyRobot.async_update
  apply andThen_mem_bound
  · intro e he
    rcases romy_query_step_mem_bound _ _ _ _ _ _ e he with hh | hh
    · exact Or.inl hh
    · exact Or.inr (by rw [hh]; simp)
  · intro tr1 s1 h1
    apply andThen_mem_bound
    · intro e he
      rcases romy_query_step_mem_bound _ _ _ _ _ _ e he with hh | hh
      · exact h1 e hh
      · exact Or.inr (by rw [hh]; simp)
    · intro tr2 s2 h2
      apply andThen_mem_bound
      · intro e he
        rcases romy_query_step_mem_bound _ _ _ _ _ _ e he with hh | hh
        · exact h2 e hh
        · exact Or.inr (by rw [hh]; simp)
      · intro tr3 s3 h3
        apply andThen_mem_bound
        · intro e he
          rcases romy_query_step_mem_bound _ _ _ _ _ _ e he with hh | hh
          · exact h3 e hh
          · exact Or.inr (by rw [hh]; simp)
        · intro tr4 s4 h4
          intro e he
          rcases romy_query_step_mem_bound _ _ _ _ _ _ e he with hh | hh
          · exact h4 e hh
          · exact Or.inr (by rw [hh]; simp)

theorem init_fetch_mem_bound (env : Env) (tr : List (Nat × String)) (s : RomyRobot) :
    ∀ e ∈ (RomyRobot.init_fetch_and_update env tr s).trace,
      e ∈ tr ∨ e.2 ∈ (["get/robot_name", "get/robot_id", "get/status",
        "get/cleaning_parameter_set", "get/wifi_status",
        "get/sensor_values", "get/statistics"] : List String) := by
  unfold RomyRobot.init_fetch_and_update
  apply andThen_mem_bound
  · intro e he
    rcases romy_query_step_mem_bound _ _ _ _ _ _ e he with hh | hh
    · exact Or.inl hh
    · exact Or.inr (by rw [hh]; simp)
  · intro tr1 s1 h1
    apply andThen_mem_bound
    · intro e he
      rcases romy_query_step_mem_bound _ _ _ _ _ _ e he with hh | hh
      · exact h1 e hh
      · exact Or.inr (by rw [hh]; simp)
    · intro tr2 s2 h2
      intro e he
      rcases async_update_mem_bound env tr2 s2 e he with hh | hh
      · exact h2 e hh
      · right
        simp only [List.mem_cons, List.mem_singleton] at hh ⊢
        tauto

theorem init_fetch_has_robot_name (env : Env) (tr : List (Nat × String)) (s : RomyRobot) :
    (s.port, "get/robot_name") ∈ (RomyRobot.init_fetch_and_update env tr s).trace := by
  unfold RomyRobot.init_fetch_and_update
  apply andThen_mem_mono
  · rw [show (init_robot_name_step env tr s).trace = tr ++ [(s.port, "get/robot_name")] from
      romy_query_step_trace _ _ _ _ _ _]
    exact List.mem_append_right _ (List.mem_singleton.mpr rfl)
  · intro tr1 s1 h1
    apply andThen_mem_mono
    · exact romy_query_step_mem_mono _ _ _ _ _ _ _ h1
    · intro tr2 s2 h2
      unfold RomyRobot.async_update
      apply andThen_mem_mono
      · exact romy_query_step_mem_mono _ _ _ _ _ _ _ h2
      · intro tr3 s3 h3
        apply andThen_mem_mono
        · exact romy_query_step_mem_mono _ _ _ _ _ _ _ h3
        · intro tr4 s4 h4
          apply andThen_mem_mono
          · exact romy_query_step_mem_mono _ _ _ _ _ _ _ h4
          · intro tr5 s5 h5
            apply andThen_mem_mono
            · exact romy_query_step_mem_mono _ _ _ _ _ _ _ h5
            · intro tr6 s6 h6
              exact romy_query_step_mem_mono _ _ _ _ _ _ _ h6

theorem init_fetch_ok_initialized {env : Env} {tr : List (Nat × String)} {s : RomyRobot}
    {tr2 : List (Nat × String)} {s2 : RomyRobot}
    (hini : s.initialized = false)
    (h : RomyRobot.init_fetch_and_update env tr s = RunResult.ok tr2 s2) :
    s2.initialized = false := by
  unfold RomyRobot.init_fetch_and_update at h
  obtain ⟨t1, s1, h1, h⟩ := andThen_ok_elim h
  obtain ⟨t2, sb, h2, h⟩ := andThen_ok_elim h
  obtain ⟨_, _, hi1⟩ := init_robot_name_step_ok_elim h1
  obtain ⟨_, _, hi2⟩ := init_robot_id_step_ok_elim h2
  obtain ⟨hu, _, _, _, _, _⟩ := async_update_ok_facts h
  rw [hu, hi2 (hi1 hini)]

theorem init_robot_name_step_total (env : Env) (tr : List (Nat × String)) (s : RomyRobot)
    (hM : env.robot_name.isMalformed = false) :
    ∃ tr2 s2, init_robot_name_step env tr s = RunResult.ok tr2 s2 :=
  romy_query_step_ok_total _ _ _ _ _ _ hM (fun _p _ => ⟨_, rfl⟩)

theorem init_robot_id_step_total (env : Env) (tr : List (Nat × String)) (s : RomyRobot)
    (hM : env.robot_id.isMalformed = false) :
    ∃ tr2 s2, init_robot_id_step env tr s = RunResult.ok tr2 s2 :=
  romy_query_step_ok_total _ _ _ _ _ _ hM (fun _p _ => ⟨_, rfl⟩)

theorem init_fetch_total (env : Env) (tr : List (Nat × String)) (s : RomyRobot)
    (hn : env.robot_name.isMalformed = false)
    (hi : env.robot_id.isMalformed = false)
    (hu : env.updateWellFormed = true) :
    ∃ tr2 s2, RomyRobot.init_fetch_and_update env tr s = RunResult.ok tr2 s2 := by
  unfold RomyRobot.init_fetch_and_update
  apply andThen_ok_total (init_robot_name_step_total env tr s hn)
  intro tr1 s1
  apply andThen_ok_total (init_robot_id_step_total env tr1 s1 hi)
  intro tr2 s2
  exact async_update_total env tr2 s2 hu

/-! ## Probe/unlock phase helper lemmas -/

theorem init_probe_fst (env : Env) (s : RomyRobot) :
    (RomyRobot.init_probe env s).1 = (probe_ports env.probe s.ports).1 := by
  unfold RomyRobot.init_probe
  rcases hpp : probe_ports env.probe s.ports with ⟨tr, res⟩
  cases res with
  | none => simp [hpp]
  | some pl => rcases pl with ⟨p, lk⟩; simp [hpp]

theorem init_probe_password (env : Env) (s : RomyRobot) :
    ((RomyRobot.init_probe env s).2).password = s.password := by
  unfold RomyRobot.init_probe
  rcases hpp : probe_ports env.probe s.ports with ⟨tr, res⟩
  cases res with
  | none => simp [hpp]
  | some pl => rcases pl with ⟨p, lk⟩; simp [hpp]

theorem init_unlock_cmds (env : Env) (s : RomyRobot) :
    ∀ e ∈ (RomyRobot.init_unlock env s).1, e.2 = "set/unlock_http?pass=" ++ s.password := by
  intro e he
  unfold RomyRobot.init_unlock at he
  by_cases hl : s.local_http_interface_is_locked
  · rw [if_pos hl] at he
    by_cases hlen : s.password.length ≠ 8
    · rw [if_pos hlen] at he
      simp at he
    · rw [if_neg hlen] at he
      by_cases hu : env.unlock_http
      · rw [if_pos hu] at he
        rcases List.mem_singleton.mp he with rfl
        rfl
      · rw [if_neg hu] at he
        rcases List.mem_singleton.mp he with rfl
        rfl
  · rw [if_neg hl] at he
    simp at he

theorem run_init_mem_bound (env : Env) (s : RomyRobot) :
    ∀ e ∈ (RomyRobot.run_init env s).trace,
      e.2 = "ishttpinterfacelocked" ∨
      e.2 = "set/unlock_http?pass=" ++ s.password ∨
      e.2 ∈ (["get/robot_name", "get/robot_id", "get/status", "get/cleaning_parameter_set",
        "get/wifi_status", "get/sensor_values", "get/statistics"] : List String) := by
  intro e he
  unfold RomyRobot.run_init at he
  rcases hpr : RomyRobot.init_probe env s with ⟨trP, sP⟩
  rcases hun : RomyRobot.init_unlock env sP with ⟨trU, sU⟩
  rw [hpr] at he
  dsimp only at he
  rw [hun] at he
  dsimp only at he
  rcases init_fetch_mem_bound env (trP ++ trU) sU e he with hmem | hcmd
  · rcases List.mem_append.mp hmem with hP | hU
    · left
      have : trP = (probe_ports env.probe s.ports).1 := by
        rw [← init_probe_fst env s, hpr]
      exact probe_ports_cmds env.probe s.ports e (this ▸ hP)
    · right; left
      have hPw : sP.password = s.password := by
        rw [← init_probe_password env s, hpr]
      have := init_unlock_cmds env sP e (by rw [hun]; exact hU)
      rw [this, hPw]
  · right; right; exact hcmd

/-! ## Claim theorems -/

/-- C3: for every call of the query primitive, the success flag is true iff
the HTTP status equals 200; a non-200 response still yields the body and the
status code with success false; a timeout yields `(false, "timeout", 0)`;
any transport error yields `(false, <error description>, 0)`; and the result
depends only on the first transport attempt (no retries). -/
theorem claim_C3_query_primitive (attempts : Nat → TransportOutcome) :
    (∀ status_code body, attempts 0 = TransportOutcome.response status_code body →
       ((_async_query attempts).success = true ↔ status_code = 200) ∧
       (_async_query attempts).body = body ∧
       (_async_query attempts).http_status = status_code) ∧
    (attempts 0 = TransportOutcome.timeoutErr →
       _async_query attempts = { success := false, body := "timeout", http_status := 0 }) ∧
    (∀ msg, attempts 0 = TransportOutcome.clientError msg →
       _async_query attempts = { success := false, body := msg, http_status := 0 }) ∧
    (∀ attempts2, attempts2 0 = attempts 0 → _async_query attempts2 = _async_query attempts) := by
  refine ⟨?_, ?_, ?_, ?_⟩
  · intro st b hr
    unfold _async_query
    rw [hr]
    simp
  · intro hr
    unfold _async_query
    rw [hr]
  · intro m hr
    unfold _async_query
    rw [hr]
  · intro a2 h2
    unfold _async_query
    rw [h2]

/-- C3 witness: a locked-interface response (HTTP 403) is classified as an
unsuccessful query that still carries body and status code. -/
theorem claim_C3_witness :
    ((_async_query fun _ => TransportOutcome.response 403 "LOCKED").success = true ↔
      (403 : Nat) = 200) ∧
    (_async_query fun _ => TransportOutcome.response 403 "LOCKED").body = "LOCKED" ∧
    (_async_query fun _ => TransportOutcome.response 403 "LOCKED").http_status = 403 :=
  (claim_C3_query_primitive (fun _ => TransportOutcome.response 403 "LOCKED")).1 403 "LOCKED" rfl

/-- C6 counterexample: `async_clean_all` returns `None` even when its query
succeeds (`clean_all` response configured successful), so it does not return
a success boolean to its caller as the claim states. -/
theorem claim_C6_counterexample :
    envHappy.clean_all = true ∧
    (RomyRobot.async_clean_all envHappy (RomyRobot.new "192.168.0.10" "12345678")).retval = none :=
  ⟨rfl, rfl⟩

/-- C6 amended: every command issues exactly one query and never raises;
`clean_start_or_continue`, `stop` and `return_to_base` return the success
boolean, while `clean_all` (missing return statement), `set_fan_speed` and
`set_user_name` return `None`. -/
theorem claim_C6_amended (env : Env) (s : RomyRobot) (fan_speed : Int) (new_name : String) :
    (RomyRobot.async_clean_start_or_continue env s).trace.length = 1 ∧
    (RomyRobot.async_clean_start_or_continue env s).retval = some env.clean_start_or_continue ∧
    (RomyRobot.async_clean_all env s).trace.length = 1 ∧
    (RomyRobot.async_clean_all env s).retval = none ∧
    (RomyRobot.async_stop env s).trace.length = 1 ∧
    (RomyRobot.async_stop env s).retval = some env.stop ∧
    (RomyRobot.async_return_to_base env s).trace.length = 1 ∧
    (RomyRobot.async_return_to_base env s).retval = some env.go_home ∧
    (RomyRobot.async_set_fan_speed env fan_speed s).trace.length = 1 ∧
    (RomyRobot.async_set_fan_speed env fan_speed s).retval = none ∧
    (RomyRobot.set_user_name env s new_name).trace.length = 1 ∧
    (RomyRobot.set_user_name env s new_name).retval = none :=
  ⟨rfl, rfl, rfl, rfl, rfl, rfl, rfl, rfl, rfl, rfl, rfl, rfl⟩

/-- C8 counterexample: on a failed `set_fan_speed` the fan speed is indeed
retained, but the session field `romy_async_query_error_log_level` changes
(the severity throttle drops from ERROR to DEBUG), so it is not true that no
other session field changes. -/
theorem claim_C8_counterexample :
    ({ envHappy with switch_cleaning_parameter_set := false } : Env).switch_cleaning_parameter_set
        = false ∧
    (RomyRobot.async_set_fan_speed { envHappy with switch_cleaning_parameter_set := false } 3
        { RomyRobot.new "192.168.0.10" "12345678" with fan_speed := 2 }).state.fan_speed = 2 ∧
    ¬ (RomyRobot.async_set_fan_speed { envHappy with switch_cleaning_parameter_set := false } 3
        { RomyRobot.new "192.168.0.10" "12345678" with
            fan_speed := 2 }).state.romy_async_query_error_log_level =
      ({ RomyRobot.new "192.168.0.10" "12345678" with
          fan_speed := 2 } : RomyRobot).romy_async_query_error_log_level := by
  refine ⟨rfl, rfl, ?_⟩
  decide

/-- C8 amended: `set_fan_speed(v)` issues exactly the query
`set/switch_cleaning_parameter_set?cleaning_parameter_set=<v>`; on success
the state is the old state with `fan_speed := v` and the severity throttle
reset to ERROR; on failure the state is the old state with only the severity
throttle lowered to DEBUG (every other field, including `fan_speed`, keeps
its prior value). -/
theorem claim_C8_amended (env : Env) (fan_speed : Int) (s : RomyRobot) :
    (RomyRobot.async_set_fan_speed env fan_speed s).trace =
      [(s.port, "set/switch_cleaning_parameter_set?cleaning_parameter_set=" ++
        toString fan_speed)] ∧
    (env.switch_cleaning_parameter_set = true →
      (RomyRobot.async_set_fan_speed env fan_speed s).state =
        { s with fan_speed := fan_speed, romy_async_query_error_log_level := logging_ERROR }) ∧
    (env.switch_cleaning_parameter_set = false →
      (RomyRobot.async_set_fan_speed env fan_speed s).state =
        { s with romy_async_query_error_log_level := logging_DEBUG }) := by
  refine ⟨rfl, ?_, ?_⟩
  · intro hr
    simp only [RomyRobot.async_set_fan_speed, romy_query_log_update, hr, if_true]
  · intro hr
    simp only [RomyRobot.async_set_fan_speed, romy_query_log_update, hr]
    rfl

/-- C8 witness: a successful `set_fan_speed(3)` on a fresh session yields
fan speed 3 immediately. -/
theorem claim_C8_witness :
    (RomyRobot.async_set_fan_speed envHappy 3 (RomyRobot.new "h" "p")).state =
      { RomyRobot.new "h" "p" with
          fan_speed := 3, romy_async_query_error_log_level := logging_ERROR } :=
  (claim_C8_amended envHappy 3 (RomyRobot.new "h" "p")).2.1 rfl

/-- C9 (code bug): `set_user_name("my robot")` embeds the caller-supplied
name verbatim, producing a command string that contains a raw space — the
parameter is not percent-encoded before being put into the URL. -/
theorem claim_C9_no_percent_encoding :
    (RomyRobot.set_user_name envHappy (RomyRobot.new "192.168.0.10" "12345678") "my robot").trace =
      [(8080, "set/robot_name?name=my robot")] ∧
    ' ' ∈ "set/robot_name?name=my robot".data :=
  ⟨rfl, by decide⟩

/-- C1: port probing iterates the candidate ports `[8080, 10009, 80]` in
order, issuing `ishttpinterfacelocked` to each; at the first port answering
400 it selects that port with `initialized = true` and
`interface_locked = false` and queries no later port, and at the first port
answering 403 it does the same with `interface_locked = true`; any other
status moves on to the next port (the probe trace is exactly the earlier
non-matching ports followed by the matching one). -/
theorem claim_C1_port_probing (host password : String) (env : Env)
    (l1 : List Nat) (p : Nat) (l2 : List Nat)
    (hdec : (RomyRobot.new host password).ports = l1 ++ p :: l2)
    (hearlier : ∀ q ∈ l1, env.probe q ≠ 400 ∧ env.probe q ≠ 403) :
    (env.probe p = 400 →
      RomyRobot.init_probe env (RomyRobot.new host password) =
        ((l1 ++ [p]).map (fun q => (q, "ishttpinterfacelocked")),
         { RomyRobot.new host password with
             port := p, initialized := true, local_http_interface_is_locked := false })) ∧
    (env.probe p = 403 →
      RomyRobot.init_probe env (RomyRobot.new host password) =
        ((l1 ++ [p]).map (fun q => (q, "ishttpinterfacelocked")),
         { RomyRobot.new host password with
             port := p, initialized := true, local_http_interface_is_locked := true })) := by
  constructor
  · intro h4
    have hspec := probe_ports_first_match env.probe l1 p l2 hearlier (Or.inl h4)
    rw [h4] at hspec
    have hb : ((400 : Nat) == 403) = false := rfl
    rw [hb] at hspec
    unfold RomyRobot.init_probe
    rw [show ({ RomyRobot.new host password with initialized := false } : RomyRobot).ports =
      l1 ++ p :: l2 from hdec]
    dsimp only
    rw [hspec, ← hdec]
  · intro h3
    have hspec := probe_ports_first_match env.probe l1 p l2 hearlier (Or.inr h3)
    rw [h3] at hspec
    have hb : ((403 : Nat) == 403) = true := rfl
    rw [hb] at hspec
    unfold RomyRobot.init_probe
    rw [show ({ RomyRobot.new host password with initialized := false } : RomyRobot).ports =
      l1 ++ p :: l2 from hdec]
    dsimp only
    rw [hspec, ← hdec]

/-- C1 witness: with port 8080 answering 0 and port 10009 answering 403, the
probe selects port 10009, marks the session initialized and locked, and
never queries port 80. -/
theorem claim_C1_witness :
    RomyRobot.init_probe envProbe10009 (RomyRobot.new "192.168.0.10" "12345678") =
      ([(8080, "ishttpinterfacelocked"), (10009, "ishttpinterfacelocked")],
       { RomyRobot.new "192.168.0.10" "12345678" with
           port := 10009, initialized := true, local_http_interface_is_locked := true }) := by
  have h := (claim_C1_port_probing "192.168.0.10" "12345678" envProbe10009
    [8080] 10009 [80] rfl (by decide)).2 (by decide)
  simpa using h

/-- C2: after port probing selects a port with the interface locked, a
password whose length is not 8 causes no unlock query to be issued and the
interface stays locked, while an 8-character password causes exactly the
query `set/unlock_http?pass=<password>` to be issued on the selected port,
and the interface ends up unlocked iff that query succeeds. -/
theorem claim_C2_unlock (env : Env) (s : RomyRobot)
    (hlock : ((RomyRobot.init_probe env s).2).local_http_interface_is_locked = true) :
    (((RomyRobot.init_probe env s).2).password.length ≠ 8 →
      RomyRobot.init_unlock env (RomyRobot.init_probe env s).2 =
        ([], (RomyRobot.init_probe env s).2)) ∧
    (((RomyRobot.init_probe env s).2).password.length = 8 →
      (RomyRobot.init_unlock env (RomyRobot.init_probe env s).2).1 =
        [(((RomyRobot.init_probe env s).2).port,
          "set/unlock_http?pass=" ++ ((RomyRobot.init_probe env s).2).password)] ∧
      ((((RomyRobot.init_unlock env
            (RomyRobot.init_probe env s).2).2).local_http_interface_is_locked = false) ↔
        env.unlock_http = true)) := by
  constructor
  · intro hlen
    simp [RomyRobot.init_unlock, hlock, hlen]
  · intro hlen
    constructor
    · cases henv : env.unlock_http <;>
        simp [RomyRobot.init_unlock, hlock, hlen, henv]
    · cases henv : env.unlock_http <;>
        simp [RomyRobot.init_unlock, hlock, hlen, henv, romy_query_log_update]

/-- C2 witness: port 8080 answers 403 and the 8-character password is sent
on port 8080; with a successful unlock reply the session ends up unlocked. -/
theorem claim_C2_witness :
    (RomyRobot.init_unlock envLock8080
        (RomyRobot.init_probe envLock8080 (RomyRobot.new "192.168.0.10" "12345678")).2).1 =
      [(((RomyRobot.init_probe envLock8080 (RomyRobot.new "192.168.0.10" "12345678")).2).port,
        "set/unlock_http?pass=" ++
          ((RomyRobot.init_probe envLock8080
            (RomyRobot.new "192.168.0.10" "12345678")).2).password)] ∧
    ((((RomyRobot.init_unlock envLock8080
          (RomyRobot.init_probe envLock8080
            (RomyRobot.new "192.168.0.10" "12345678")).2).2).local_http_interface_is_locked
        = false) ↔
      envLock8080.unlock_http = true) :=
  (claim_C2_unlock envLock8080 (RomyRobot.new "192.168.0.10" "12345678")
    (by decide)).2 (by decide)

/-- C10: every completed `async_update` leaves the key "battery_level" in
the sensors dict, bound to the session's current `battery_level` value —
which is `None` (not an integer) whenever `get/status` did not succeed in
this run and no earlier run had set it. -/
theorem claim_C10_battery_sensor (env : Env) (tr : List (Nat × String)) (s : RomyRobot)
    (tr2 : List (Nat × String)) (s2 : RomyRobot)
    (h : RomyRobot.async_update env tr s = RunResult.ok tr2 s2) :
    dictGet s2.sensors "battery_level" = some (pyOfOptInt s2.battery_level) ∧
    (env.status.isOk = false → s.battery_level = none → s2.battery_level = none) := by
  obtain ⟨_, hkey, hfail, _, _, hdisj⟩ := async_update_ok_facts h
  refine ⟨hkey, ?_⟩
  intro hnok hnone
  rcases hdisj with hf | ⟨p, hok⟩
  · rw [(hfail hf).2, hnone]
  · rw [hok] at hnok
    simp [Reply.isOk] at hnok

/-- C10 witness: a refresh in which every query fails still records
`sensors["battery_level"] = None`. -/
theorem claim_C10_witness :
    dictGet sAfterAllFailUpdate.sensors "battery_level" =
      some (pyOfOptInt sAfterAllFailUpdate.battery_level) ∧
    sAfterAllFailUpdate.battery_level = none :=
  ⟨(claim_C10_battery_sensor envAllFail [] (RomyRobot.new "h" "pw")
      updateTraceAllFail sAfterAllFailUpdate rfl).1,
   (claim_C10_battery_sensor envAllFail [] (RomyRobot.new "h" "pw")
      updateTraceAllFail sAfterAllFailUpdate rfl).2 (by decide) rfl⟩

/-- C5 counterexample: when `get/status` succeeds (HTTP 200) but its body is
malformed, `json.loads` raises and the exception escapes `async_update`, so
`async_update` is not exception-free. -/
theorem claim_C5_counterexample :
    RomyRobot.async_update { envAllFail with status := Reply.okMalformed } []
      (RomyRobot.new "192.168.0.10" "12345678") =
    RunResult.exn [(8080, "get/status")] "get/status: malformed response" := rfl

/-- C5 amended: provided every successful response body is well-formed (so
no parse step raises), `async_update` completes without exception, and in
every run where `get/wifi_status` fails while `get/status` succeeds, the
`status` and `battery_level` fields are updated from the `get/status`
payload while `sensors["rssi"]` is left absent/unchanged. -/
theorem claim_C5_amended (env : Env) (tr : List (Nat × String)) (s : RomyRobot) (p : StatusPayload)
    (hwf : env.updateWellFormed = true)
    (hwifi : env.wifi_status = Reply.fail)
    (hstat : env.status = Reply.ok p) :
    ∃ tr2 s2, RomyRobot.async_update env tr s = RunResult.ok tr2 s2 ∧
      s2.status = some p.mode ∧ s2.battery_level = some p.battery_level ∧
      dictGet s2.sensors "rssi" = dictGet s.sensors "rssi" := by
  obtain ⟨tr2, s2, hrun⟩ := async_update_total env tr s hwf
  obtain ⟨_, _, _, hok, hrssi, _⟩ := async_update_ok_facts hrun
  obtain ⟨hm, hb⟩ := hok p hstat
  exact ⟨tr2, s2, hrun, hm, hb, hrssi hwifi⟩

/-- C5 witness: with only `get/status` succeeding, the refresh completes,
updates status and battery, and leaves "rssi" absent. -/
theorem claim_C5_witness :
    sAfterStatusOnlyUpdate.status = some "cleaning" ∧
    sAfterStatusOnlyUpdate.battery_level = some 77 ∧
    dictGet sAfterStatusOnlyUpdate.sensors "rssi" =
      dictGet (RomyRobot.new "h" "pw").sensors "rssi" := by
  obtain ⟨tr2, s2, hrun, hm, hb, hr⟩ := claim_C5_amended envStatusOnly [] (RomyRobot.new "h" "pw")
    { mode := "cleaning", battery_level := 77 } (by decide) rfl rfl
  have h2 : RomyRobot.async_update envStatusOnly [] (RomyRobot.new "h" "pw") =
      RunResult.ok updateTraceAllFail sAfterStatusOnlyUpdate := rfl
  have heq : RunResult.ok tr2 s2 =
      RunResult.ok updateTraceAllFail sAfterStatusOnlyUpdate := hrun.symm.trans h2
  cases heq
  exact ⟨hm, hb, hr⟩

/-- C7 counterexample: on a fully healthy device the whole initialization
issues exactly one probe, the two identity fetches and the five refresh
fetches — `get/sensor_status` is never queried, so no capability discovery
takes place. -/
theorem claim_C7_counterexample :
    ((RomyRobot.run_init envHappy (RomyRobot.new "192.168.0.10" "12345678")).trace.map
        Prod.snd).contains "get/sensor_status" = false ∧
    (RomyRobot.run_init envHappy (RomyRobot.new "192.168.0.10" "12345678")).trace.map Prod.snd =
      ["ishttpinterfacelocked", "get/robot_name", "get/robot_id", "get/status",
       "get/cleaning_parameter_set", "get/wifi_status", "get/sensor_values", "get/statistics"] := by
  decide

/-- C7 amended: initialization never issues a `get/sensor_status` query (no
capability discovery exists in this revision; `binary_sensors` is populated
only by the refresh handling of `get/sensor_values`). -/
theorem claim_C7_amended (env : Env) (host password : String) :
    ∀ e ∈ (RomyRobot.run_init env (RomyRobot.new host password)).trace,
      ¬ e.2 = "get/sensor_status" := by
  intro e he heq
  rcases run_init_mem_bound env (RomyRobot.new host password) e he with h | h | h
  · rw [heq] at h
    exact absurd h (by decide)
  · rw [heq] at h
    exact unlock_cmd_ne (RomyRobot.new host password).password "get/sensor_status"
      (by decide) h.symm
  · rw [heq] at h
    exact absurd h (by decide)

/-- C7 witness: a concrete trace entry of a concrete run is not
`get/sensor_status`. -/
theorem claim_C7_witness :
    ¬ ((8080, "get/robot_name") : Nat × String).2 = "get/sensor_status" :=
  claim_C7_amended envHappy "192.168.0.10" "12345678" (8080, "get/robot_name") (by decide)

/-- C4 counterexample: all three probes fail (transport status 0), yet
initialization still issues the identity-fetch and refresh queries on the
default port — contradicting the claim that no such queries are issued. -/
theorem claim_C4_counterexample :
    (envAllFail.probe 8080 = 0 ∧ envAllFail.probe 10009 = 0 ∧ envAllFail.probe 80 = 0) ∧
    (RomyRobot.run_init envAllFail (RomyRobot.new "192.168.0.10" "12345678")).trace.map
        Prod.snd =
      ["ishttpinterfacelocked", "ishttpinterfacelocked", "ishttpinterfacelocked",
       "get/robot_name", "get/robot_id", "get/status", "get/cleaning_parameter_set",
       "get/wifi_status", "get/sensor_values", "get/statistics"] := by
  decide

/-- C4 amended: if no candidate port answers 400 or 403, `initialized`
remains false on every non-raising run and no unlock query is issued; the
identity fetch (and, behind it, the refresh) is nonetheless still attempted
on the default port 8080. -/
theorem claim_C4_amended (env : Env) (host password : String)
    (h : ∀ q ∈ (RomyRobot.new host password).ports, env.probe q ≠ 400 ∧ env.probe q ≠ 403) :
    (∀ e ∈ (RomyRobot.run_init env (RomyRobot.new host password)).trace,
       ¬ e.2 = "set/unlock_http?pass=" ++ password) ∧
    ((8080 : Nat), "get/robot_name") ∈
      (RomyRobot.run_init env (RomyRobot.new host password)).trace ∧
    (∀ tr2 s2, RomyRobot.run_init env (RomyRobot.new host password) = RunResult.ok tr2 s2 →
       s2.initialized = false) := by
  have hno := probe_ports_no_match env.probe [8080, 10009, 80] h
  have hrun : RomyRobot.run_init env (RomyRobot.new host password) =
      RomyRobot.init_fetch_and_update env
        ([(8080, "ishttpinterfacelocked"), (10009, "ishttpinterfacelocked"),
          (80, "ishttpinterfacelocked")] ++ [])
        (RomyRobot.new host password) := by
    unfold RomyRobot.run_init RomyRobot.init_probe
    rw [show ({ RomyRobot.new host password with initialized := false } : RomyRobot).ports =
      [8080, 10009, 80] from rfl]
    dsimp only
    rw [hno]
    rfl
  refine ⟨?_, ?_, ?_⟩
  · intro e he heq
    rw [hrun] at he
    rcases init_fetch_mem_bound env _ _ e he with hmem | hcmd
    · simp at hmem
      rcases hmem with rfl | rfl | rfl <;>
        exact unlock_cmd_ne password "ishttpinterfacelocked" (by decide) heq.symm
    · rw [heq] at hcmd
      simp at hcmd
      rcases hcmd with hc | hc | hc | hc | hc | hc | hc <;>
        exact unlock_cmd_ne password _ (by decide) hc
  · rw [hrun]
    exact init_fetch_has_robot_name env _ (RomyRobot.new host password)
  · intro tr2 s2 hok
    rw [hrun] at hok
    exact init_fetch_ok_initialized rfl hok

/-- C4 witness: with all probes failing, the identity fetch is still issued
on port 8080. -/
theorem claim_C4_witness :
    ((8080 : Nat), "get/robot_name") ∈
      (RomyRobot.run_init envAllFail (RomyRobot.new "192.168.0.10" "12345678")).trace :=
  (claim_C4_amended envAllFail "192.168.0.10" "12345678" (by decide)).2.1
